import Mathlib

/-!
Verification of the STL viewer component (src/app/components/STLViewer.tsx):
the camera auto-fit computation performed in the load-success callback, the
mesh-centering computation, and the mount / teardown resource lifecycle of
the effect hook.
-/

namespace STLViewer

/-!
### Camera auto-fit computation (load-success callback, lines 101-125)

The source computes, from the largest bounding-box dimension `maxDim`:
  fov     = camera.fov * (Math.PI / 180)        with camera.fov = 75
  cameraZ = Math.abs(maxDim / Math.sin(fov / 2))
  camera.position.z = cameraZ * 1.5
  nearPlane = Math.max(maxDim * 0.01, 0.1)
  farPlane  = (cameraZ + maxDim / 2) * 2
-/

/-- `camera.fov * (Math.PI / 180)` with `camera.fov = 75` (lines 51 and 105). -/
noncomputable def fov : ℝ := 75 * (Real.pi / 180)

/-- `Math.abs(maxDim / Math.sin(fov / 2))` (line 106). -/
noncomputable def cameraZ (maxDim : ℝ) : ℝ := |maxDim / Real.sin (fov / 2)|

/-- `camera.position.z = cameraZ * 1.5` (line 109). -/
noncomputable def cameraPositionZ (maxDim : ℝ) : ℝ := cameraZ maxDim * 1.5

/-- `nearPlaneFactor = 0.01` (line 113). -/
noncomputable def nearPlaneFactor : ℝ := 0.01

/-- `Math.max(maxDim * nearPlaneFactor, 0.1)` (line 114). -/
noncomputable def nearPlane (maxDim : ℝ) : ℝ := max (maxDim * nearPlaneFactor) 0.1

/-- `cameraToFarPoint = cameraZ + maxDim / 2` (line 117). -/
noncomputable def cameraToFarPoint (maxDim : ℝ) : ℝ := cameraZ maxDim + maxDim / 2

/-- `farPlaneFactor = 2` (line 118). -/
noncomputable def farPlaneFactor : ℝ := 2

/-- `farPlane = cameraToFarPoint * farPlaneFactor` (line 120). -/
noncomputable def farPlane (maxDim : ℝ) : ℝ := cameraToFarPoint maxDim * farPlaneFactor

lemma fov_half_eq : fov / 2 = 5 * Real.pi / 24 := by
  unfold fov; ring

lemma sin_fov_half_pos : 0 < Real.sin (fov / 2) := by
  rw [fov_half_eq]
  apply Real.sin_pos_of_pos_of_lt_pi
  · positivity
  · nlinarith [Real.pi_pos]

lemma sin_fov_half_le_one : Real.sin (fov / 2) ≤ 1 :=
  Real.sin_le_one _

lemma sin_fov_half_gt_half : 1 / 2 < Real.sin (fov / 2) := by
  have hpi := Real.pi_pos
  rw [fov_half_eq, ← Real.sin_pi_div_six]
  apply Real.strictMonoOn_sin
  · constructor <;> [linarith; linarith]
  · constructor <;> [linarith; linarith]
  · linarith

lemma cos_five_pi_div_twelve :
    Real.cos (5 * Real.pi / 12) = (Real.sqrt 6 - Real.sqrt 2) / 4 := by
  have h : 5 * Real.pi / 12 = Real.pi / 4 + Real.pi / 6 := by ring
  rw [h, Real.cos_add, Real.cos_pi_div_four, Real.cos_pi_div_six,
    Real.sin_pi_div_four, Real.sin_pi_div_six]
  have h6 : Real.sqrt 6 = Real.sqrt 2 * Real.sqrt 3 := by
    rw [← Real.sqrt_mul (by norm_num : (0:ℝ) ≤ 2)]
    norm_num
  rw [h6]; ring

lemma sin_fov_half_sq :
    Real.sin (fov / 2) ^ 2 = (4 - Real.sqrt 6 + Real.sqrt 2) / 8 := by
  have h2 : 2 * (fov / 2) = 5 * Real.pi / 12 := by unfold fov; ring
  rw [Real.sin_sq_eq_half_sub, h2, cos_five_pi_div_twelve]; ring

lemma sqrt_six_bounds : 2.4494 < Real.sqrt 6 ∧ Real.sqrt 6 < 2.4495 :=
  ⟨(Real.lt_sqrt (by norm_num)).mpr (by norm_num),
   (Real.sqrt_lt' (by norm_num)).mpr (by norm_num)⟩

lemma sqrt_two_bounds : 1.41421 < Real.sqrt 2 ∧ Real.sqrt 2 < 1.41422 :=
  ⟨(Real.lt_sqrt (by norm_num)).mpr (by norm_num),
   (Real.sqrt_lt' (by norm_num)).mpr (by norm_num)⟩

/-- Tight numeric enclosure of sin(37.5°), via the half-angle identity. -/
lemma sin_fov_half_bounds :
    0.6087 < Real.sin (fov / 2) ∧ Real.sin (fov / 2) < 0.6089 := by
  obtain ⟨h6l, h6u⟩ := sqrt_six_bounds
  obtain ⟨h2l, h2u⟩ := sqrt_two_bounds
  have hsq := sin_fov_half_sq
  constructor
  · apply lt_of_pow_lt_pow_left₀ 2 sin_fov_half_pos.le
    rw [hsq]; nlinarith
  · apply lt_of_pow_lt_pow_left₀ 2 (by norm_num : (0:ℝ) ≤ 0.6089)
    rw [hsq]; nlinarith

lemma cameraPositionZ_two_eq : cameraPositionZ 2 = 3 / Real.sin (fov / 2) := by
  have hs0 := sin_fov_half_pos
  unfold cameraPositionZ cameraZ
  rw [abs_of_nonneg (div_nonneg (by norm_num) hs0.le)]
  ring

lemma farPlane_two_eq : farPlane 2 = 4 / Real.sin (fov / 2) + 2 := by
  have hs0 := sin_fov_half_pos
  unfold farPlane cameraToFarPoint cameraZ farPlaneFactor
  rw [abs_of_nonneg (div_nonneg (by norm_num) hs0.le)]
  ring

lemma cameraPositionZ_two_gt : 4.92 < cameraPositionZ 2 := by
  obtain ⟨hl, hu⟩ := sin_fov_half_bounds
  have hs0 := sin_fov_half_pos
  rw [cameraPositionZ_two_eq, lt_div_iff₀ hs0]
  nlinarith

lemma farPlane_two_gt : 8.56 < farPlane 2 := by
  obtain ⟨hl, hu⟩ := sin_fov_half_bounds
  have hs0 := sin_fov_half_pos
  rw [farPlane_two_eq]
  have h : 6.56 < 4 / Real.sin (fov / 2) := by
    rw [lt_div_iff₀ hs0]; nlinarith
  linarith

/-- C1: the claim asserts `nearPlane < farPlane` for every `maxDim > 0`; it
fails at `maxDim = 1/100`, where the far plane is below the 0.1 near-plane
floor. -/
theorem near_lt_far_fails_at_small_maxDim :
    farPlane (1 / 100) < nearPlane (1 / 100) := by
  have hs := sin_fov_half_gt_half
  have hs0 := sin_fov_half_pos
  unfold farPlane cameraToFarPoint cameraZ nearPlane nearPlaneFactor farPlaneFactor
  rw [abs_of_nonneg (div_nonneg (by norm_num) hs0.le)]
  have h1 : (1:ℝ) / 100 / Real.sin (fov / 2) < 1 / 50 := by
    rw [div_lt_iff₀ hs0]; nlinarith
  have h2 : max ((1:ℝ) / 100 * 0.01) 0.1 = 0.1 := max_eq_right (by norm_num)
  rw [h2]
  linarith

/-- C1 (amended): for every `maxDim ≥ 1/10`, the near plane equals
`max (maxDim * 0.01) 0.1` and is strictly below the far plane
`(maxDim / sin(fov/2) + maxDim/2) * 2`. -/
theorem near_lt_far_of_maxDim_ge (maxDim : ℝ) (h : 1 / 10 ≤ maxDim) :
    nearPlane maxDim = max (maxDim * 0.01) 0.1 ∧ nearPlane maxDim < farPlane maxDim := by
  refine ⟨rfl, ?_⟩
  have hs0 := sin_fov_half_pos
  have hs1 := sin_fov_half_le_one
  have hm : (0:ℝ) < maxDim := lt_of_lt_of_le (by norm_num) h
  have hdiv : maxDim ≤ maxDim / Real.sin (fov / 2) := by
    rw [le_div_iff₀ hs0]; nlinarith
  unfold nearPlane farPlane cameraToFarPoint cameraZ nearPlaneFactor farPlaneFactor
  rw [abs_of_nonneg (div_nonneg hm.le hs0.le)]
  apply max_lt
  · nlinarith
  · nlinarith

theorem near_lt_far_of_maxDim_ge_witness :
    (1:ℝ) / 10 ≤ 1 ∧
      (nearPlane 1 = max (1 * 0.01) 0.1 ∧ nearPlane 1 < farPlane 1) :=
  ⟨by norm_num, near_lt_far_of_maxDim_ge 1 (by norm_num)⟩

/-- C2: the claim puts the camera z-position for a 2×2×2 cube near 2.46 and
the far plane near 6.92; the code yields ≈ 4.93 and ≈ 8.57, far from both. -/
theorem cube_fit_claimed_values_wrong :
    2 < |cameraPositionZ 2 - 2.46| ∧ 1.6 < |farPlane 2 - 6.92| := by
  have hz := cameraPositionZ_two_gt
  have hf := farPlane_two_gt
  constructor
  · calc (2:ℝ) < cameraPositionZ 2 - 2.46 := by linarith
      _ ≤ |cameraPositionZ 2 - 2.46| := le_abs_self _
  · calc (1.6:ℝ) < farPlane 2 - 6.92 := by linarith
      _ ≤ |farPlane 2 - 6.92| := le_abs_self _

/-- C2 (amended): for a 2×2×2 cube centered at the origin (maxDim = 2) with
75° fov, the near plane is exactly max(0.02, 0.1) = 0.1, the final camera
z-position is (2 / sin 37.5°) * 1.5 ≈ 4.93, and the far plane is
(2 / sin 37.5° + 1) * 2 ≈ 8.57. -/
theorem cube_fit_values :
    nearPlane 2 = 0.1 ∧
      4.92 < cameraPositionZ 2 ∧ cameraPositionZ 2 < 4.93 ∧
      8.56 < farPlane 2 ∧ farPlane 2 < 8.58 := by
  obtain ⟨hl, hu⟩ := sin_fov_half_bounds
  have hs0 := sin_fov_half_pos
  refine ⟨?_, cameraPositionZ_two_gt, ?_, farPlane_two_gt, ?_⟩
  · unfold nearPlane nearPlaneFactor
    rw [max_eq_right (by norm_num : (2:ℝ) * 0.01 ≤ 0.1)]
  · rw [cameraPositionZ_two_eq, div_lt_iff₀ hs0]
    nlinarith
  · rw [farPlane_two_eq]
    have h : 4 / Real.sin (fov / 2) < 6.58 := by
      rw [div_lt_iff₀ hs0]; nlinarith
    linarith

/-- C4: on load success the camera z-position is 1.5 × (maxDim / sin(fov/2))
and the far plane is (cameraZ + maxDim/2) × 2 with cameraZ the pre-margin fit
distance, for every nonnegative maxDim. -/
theorem camera_position_and_far_formulas (maxDim : ℝ) (h : 0 ≤ maxDim) :
    cameraPositionZ maxDim = 1.5 * (maxDim / Real.sin (fov / 2)) ∧
      farPlane maxDim = (maxDim / Real.sin (fov / 2) + maxDim / 2) * 2 := by
  have hs0 := sin_fov_half_pos
  have habs : |maxDim / Real.sin (fov / 2)| = maxDim / Real.sin (fov / 2) :=
    abs_of_nonneg (div_nonneg h hs0.le)
  unfold cameraPositionZ farPlane cameraToFarPoint cameraZ farPlaneFactor
  rw [habs]
  constructor <;> ring

theorem camera_position_and_far_formulas_witness :
    (0:ℝ) ≤ 5 ∧
      (cameraPositionZ 5 = 1.5 * (5 / Real.sin (fov / 2)) ∧
        farPlane 5 = (5 / Real.sin (fov / 2) + 5 / 2) * 2) :=
  ⟨by norm_num, camera_position_and_far_formulas 5 (by norm_num)⟩

/-!
### Mesh centering (load-success callback, lines 94-99)

The source computes the geometry's axis-aligned bounding box, its center,
and sets `mesh.position.set(-center.x, -center.y, -center.z)`. Geometry is
modelled as a nonempty list of vertices (head plus tail); coordinates are
rationals, standing in for the machine reals of the source.
-/

structure Vec3 where
  x : ℚ
  y : ℚ
  z : ℚ
deriving DecidableEq, Repr

def vmin (a b : Vec3) : Vec3 := ⟨min a.x b.x, min a.y b.y, min a.z b.z⟩

def vmax (a b : Vec3) : Vec3 := ⟨max a.x b.x, max a.y b.y, max a.z b.z⟩

def vadd (a b : Vec3) : Vec3 := ⟨a.x + b.x, a.y + b.y, a.z + b.z⟩

def vneg (a : Vec3) : Vec3 := ⟨-a.x, -a.y, -a.z⟩

structure Box3 where
  boxMin : Vec3
  boxMax : Vec3
deriving DecidableEq, Repr

/-- `geometry.computeBoundingBox()` (line 95): componentwise min/max over all
vertices of the geometry, folded from the first vertex. -/
def computeBoundingBox (v : Vec3) (vs : List Vec3) : Box3 :=
  ⟨vs.foldl vmin v, vs.foldl vmax v⟩

/-- `boundingBox.getCenter(center)` (line 98): the library returns
`(min + max) * 0.5`. -/
def getCenter (b : Box3) : Vec3 :=
  ⟨(b.boxMin.x + b.boxMax.x) / 2, (b.boxMin.y + b.boxMax.y) / 2,
    (b.boxMin.z + b.boxMax.z) / 2⟩

/-- `mesh.position.set(-center.x, -center.y, -center.z)` (line 99). -/
def meshPosition (v : Vec3) (vs : List Vec3) : Vec3 :=
  vneg (getCenter (computeBoundingBox v vs))

lemma qmin_add (a b t : ℚ) : min (a + t) (b + t) = min a b + t := by
  rcases le_total a b with h | h
  · rw [min_eq_left h, min_eq_left (by linarith)]
  · rw [min_eq_right h, min_eq_right (by linarith)]

lemma qmax_add (a b t : ℚ) : max (a + t) (b + t) = max a b + t := by
  rcases le_total a b with h | h
  · rw [max_eq_right h, max_eq_right (by linarith)]
  · rw [max_eq_left h, max_eq_left (by linarith)]

lemma vmin_vadd (a b t : Vec3) : vmin (vadd a t) (vadd b t) = vadd (vmin a b) t := by
  simp only [vmin, vadd, qmin_add]

lemma vmax_vadd (a b t : Vec3) : vmax (vadd a t) (vadd b t) = vadd (vmax a b) t := by
  simp only [vmax, vadd, qmax_add]

lemma foldl_vmin_map_vadd (l : List Vec3) (a t : Vec3) :
    (l.map (fun w => vadd w t)).foldl vmin (vadd a t) = vadd (l.foldl vmin a) t := by
  induction l generalizing a with
  | nil => rfl
  | cons b bs ih => simp only [List.map_cons, List.foldl_cons, vmin_vadd, ih]

lemma foldl_vmax_map_vadd (l : List Vec3) (a t : Vec3) :
    (l.map (fun w => vadd w t)).foldl vmax (vadd a t) = vadd (l.foldl vmax a) t := by
  induction l generalizing a with
  | nil => rfl
  | cons b bs ih => simp only [List.map_cons, List.foldl_cons, vmax_vadd, ih]

/-- Translating every vertex translates the bounding-box center. -/
lemma getCenter_computeBoundingBox_vadd (v : Vec3) (vs : List Vec3) (t : Vec3) :
    getCenter (computeBoundingBox (vadd v t) (vs.map (fun w => vadd w t))) =
      vadd (getCenter (computeBoundingBox v vs)) t := by
  unfold computeBoundingBox
  rw [foldl_vmin_map_vadd, foldl_vmax_map_vadd]
  simp only [getCenter, vadd, Vec3.mk.injEq]
  refine ⟨by ring, by ring, by ring⟩

lemma vadd_vneg (c : Vec3) : vadd c (vneg c) = ⟨0, 0, 0⟩ := by
  simp only [vadd, vneg, Vec3.mk.injEq]
  refine ⟨by ring, by ring, by ring⟩

/-- C5: for every mesh, the bounding-box center offset by the mesh's position
is the origin, and the bounding box of the mesh translated by that position
has its center at the origin, regardless of the authored origin. -/
theorem mesh_centering (v : Vec3) (vs : List Vec3) :
    vadd (getCenter (computeBoundingBox v vs)) (meshPosition v vs) = ⟨0, 0, 0⟩ ∧
      getCenter (computeBoundingBox (vadd v (meshPosition v vs))
        (vs.map (fun w => vadd w (meshPosition v vs)))) = ⟨0, 0, 0⟩ := by
  constructor
  · exact vadd_vneg _
  · rw [getCenter_computeBoundingBox_vadd]
    exact vadd_vneg _

/-!
### Mount / teardown lifecycle (effect hook, lines 32-180)

The effect body, the loader's completion callbacks and the cleanup closure
are modelled as functions on an explicit viewer state. DOM elements, the
renderer, the controls and requested animation frames are identified by
numeric ids; `Except` captures the DOM exception `removeChild` raises on a
non-child argument.
-/

structure ViewerState where
  /-- ids of the DOM children of the mount container. -/
  containerChildren : List Nat
  /-- whether `mountRef.current` is non-null (component still mounted). -/
  mounted : Bool
  /-- `rendererRef.current`; the renderer and its dom element share an id. -/
  rendererRef : Option Nat
  /-- `controlsRef.current`. -/
  controlsRef : Option Nat
  /-- `animationFrameRef.current`. -/
  animationFrameRef : Option Nat
  /-- ids of meshes added to the scene. -/
  sceneMeshes : List Nat
  /-- number of lights in the scene. -/
  sceneLights : Nat
  /-- the `loading` component state. -/
  loading : Bool
  /-- the `error` component state. -/
  error : Option String
  /-- whether an animation loop is scheduled to keep running. -/
  renderLoopActive : Bool
  /-- fresh-id source for newly created objects. -/
  nextId : Nat
deriving DecidableEq, Repr

/-- State on first mount: both `useState` hooks and the three refs at their
initial values (lines 24-30), the container empty. -/
def initialState : ViewerState where
  containerChildren := []
  mounted := true
  rendererRef := none
  controlsRef := none
  animationFrameRef := none
  sceneMeshes := []
  sceneLights := 0
  loading := true
  error := none
  renderLoopActive := false
  nextId := 0

/-- `container.removeChild(el)`: throws a DOM `NotFoundError` when `el` is
not a child of the container. -/
def removeChild (children : List Nat) (el : Nat) : Except String (List Nat) :=
  if el ∈ children then .ok (children.erase el) else .error "NotFoundError"

/-- Lines 35-39: `if (rendererRef.current)`, remove its dom element from the
container — an unguarded `removeChild`, which throws when the element is not
a child — and dispose the renderer. -/
def clearPriorSurface (s : ViewerState) : Except String (List Nat) :=
  match s.rendererRef with
  | some r => removeChild s.containerChildren r
  | none => .ok s.containerChildren

/-- The effect body (lines 32-78 and 142-151): early return when the mount
ref is null (line 33); prior-surface removal (lines 35-39); cancellation of
any pending frame (lines 42-44, subsumed by the restart of the loop);
creation and attachment of the new renderer and controls, three lights, and
the start of the animation loop, which stores a fresh frame handle. -/
def initE (s : ViewerState) : Except String ViewerState :=
  if s.mounted = false then .ok s
  else
    match clearPriorSurface s with
    | .ok children0 =>
      .ok { s with
        containerChildren := children0 ++ [s.nextId],
        rendererRef := some s.nextId,
        controlsRef := some (s.nextId + 1),
        sceneMeshes := [],
        sceneLights := 3,
        animationFrameRef := some (s.nextId + 2),
        renderLoopActive := true,
        nextId := s.nextId + 3 }
    | .error e => .error e

/-- The load-success callback, state portion (lines 85-129): builds the mesh,
adds it to the scene and clears `loading`. It reads no mount-liveness
information. -/
def onLoadSuccess (meshId : Nat) (s : ViewerState) : ViewerState :=
  { s with sceneMeshes := s.sceneMeshes ++ [meshId], loading := false }

/-- The load-error callback (lines 135-139): logs the underlying error value,
sets the fixed user-facing message and clears `loading`. It reads no
mount-liveness information. -/
def onLoadError (_err : String) (s : ViewerState) : ViewerState :=
  { s with error := some "Failed to load the 3D model.", loading := false }

/-- Lines 166-176: dispose the renderer and detach its element from the
container, but only when the container still exists and still contains it. -/
def detachSurface (s : ViewerState) : Except String (List Nat) :=
  match s.rendererRef with
  | some r =>
    if s.mounted = true ∧ r ∈ s.containerChildren then removeChild s.containerChildren r
    else .ok s.containerChildren
  | none => .ok s.containerChildren

/-- The cleanup closure (lines 154-179): cancel a pending frame — the frame
handle itself is never cleared —, clear the scene, dispose and null the
controls (lines 161-164), detach the surface behind the contains-guard and
null the renderer handle (lines 166-178). -/
def teardownE (s : ViewerState) : Except String ViewerState :=
  match detachSurface s with
  | .ok children =>
    .ok { s with
      renderLoopActive := if s.animationFrameRef.isSome then false else s.renderLoopActive,
      sceneMeshes := [],
      sceneLights := 0,
      controlsRef := none,
      containerChildren := children,
      rendererRef := none }
  | .error e => .error e

/-- A state mid-cycle: renderer 0 attached, controls 1, a mesh 5 displayed,
frame 7 pending. -/
def runningState : ViewerState where
  containerChildren := [0]
  mounted := true
  rendererRef := some 0
  controlsRef := some 1
  animationFrameRef := some 7
  sceneMeshes := [5]
  sceneLights := 3
  loading := false
  error := none
  renderLoopActive := true
  nextId := 8

/-- The result of tearing down `runningState`. -/
def tornState : ViewerState :=
  { runningState with
    renderLoopActive := false, sceneMeshes := [], sceneLights := 0,
    controlsRef := none, containerChildren := [], rendererRef := none }

lemma detachSurface_ok (s : ViewerState) : ∃ c, detachSurface s = .ok c := by
  unfold detachSurface removeChild
  split
  next r heq =>
    split
    next h =>
      split
      next => exact ⟨_, rfl⟩
      next hmem => exact absurd h.2 hmem
    next => exact ⟨_, rfl⟩
  next => exact ⟨_, rfl⟩

/-- Teardown always succeeds; it nulls the renderer and controls handles,
empties the scene, and leaves the animation-frame handle untouched. -/
lemma teardownE_isOk (s : ViewerState) :
    ∃ t, teardownE s = .ok t ∧ t.rendererRef = none ∧ t.controlsRef = none ∧
      t.sceneMeshes = [] ∧ t.animationFrameRef = s.animationFrameRef ∧
      t.mounted = s.mounted := by
  obtain ⟨c, hc⟩ := detachSurface_ok s
  refine ⟨{ s with
    renderLoopActive := if s.animationFrameRef.isSome then false else s.renderLoopActive,
    sceneMeshes := [], sceneLights := 0, controlsRef := none,
    containerChildren := c, rendererRef := none }, ?_, rfl, rfl, rfl, rfl, rfl⟩
  unfold teardownE
  rw [hc]

lemma initE_isOk_of_renderer_none (s : ViewerState) (h : s.rendererRef = none) :
    ∃ u, initE s = .ok u := by
  unfold initE clearPriorSurface
  rw [h]
  by_cases hm : s.mounted = false
  · rw [if_pos hm]
    exact ⟨_, rfl⟩
  · rw [if_neg hm]
    exact ⟨_, rfl⟩

lemma initE_of_no_renderer (s : ViewerState) (hm : s.mounted = true)
    (hr : s.rendererRef = none) :
    initE s = .ok { s with
      containerChildren := s.containerChildren ++ [s.nextId],
      rendererRef := some s.nextId,
      controlsRef := some (s.nextId + 1),
      sceneMeshes := [],
      sceneLights := 3,
      animationFrameRef := some (s.nextId + 2),
      renderLoopActive := true,
      nextId := s.nextId + 3 } := by
  unfold initE clearPriorSurface
  rw [hm, hr]
  simp

lemma teardownE_of_attached (s : ViewerState) (r : Nat) (hm : s.mounted = true)
    (hr : s.rendererRef = some r) (hc : s.containerChildren = [r]) :
    teardownE s = .ok { s with
      renderLoopActive := if s.animationFrameRef.isSome then false else s.renderLoopActive,
      sceneMeshes := [], sceneLights := 0, controlsRef := none,
      containerChildren := [], rendererRef := none } := by
  unfold teardownE detachSurface removeChild
  rw [hr, hc, hm]
  simp

/-- The condition of the prior-surface removal branch at the top of the
effect body (line 36). -/
def priorSurfaceBranchTaken (s : ViewerState) : Bool := s.rendererRef.isSome

/-- C3: the load-success callback performs no mount-liveness check — fired
after a completed teardown it still adds the mesh to the disposed scene and
mutates the loading state. -/
theorem load_success_mutates_after_teardown (s t : ViewerState) (m : Nat)
    (h : teardownE s = .ok t) :
    (onLoadSuccess m t).sceneMeshes = [m] ∧ (onLoadSuccess m t).loading = false := by
  obtain ⟨t', ht', -, -, hmesh, -, -⟩ := teardownE_isOk s
  rw [h] at ht'
  have hts := Except.ok.inj ht'
  rw [← hts] at hmesh
  refine ⟨?_, rfl⟩
  show t.sceneMeshes ++ [m] = [m]
  rw [hmesh, List.nil_append]

theorem load_success_mutates_after_teardown_witness :
    teardownE runningState = Except.ok tornState ∧
      ((onLoadSuccess 42 tornState).sceneMeshes = [42] ∧
        (onLoadSuccess 42 tornState).loading = false) :=
  ⟨rfl, load_success_mutates_after_teardown runningState tornState 42 rfl⟩

/-- C6, counterexample: tearing down a state whose pending frame handle is 7
leaves the animation-frame handle at `some 7` — the cleanup cancels the frame
but never nulls this handle. -/
theorem teardown_leaves_frame_handle_set :
    (teardownE runningState).map ViewerState.animationFrameRef = .ok (some 7) := rfl

/-- C6 (amended): teardown always succeeds, nulls the renderer and controls
handles, and a second teardown in succession also succeeds (no throw); the
pending animation-frame handle, however, is left unchanged, not nulled. -/
theorem teardown_idempotent_and_nulls_handles (s : ViewerState) :
    ∃ t, teardownE s = .ok t ∧ t.rendererRef = none ∧ t.controlsRef = none ∧
      t.animationFrameRef = s.animationFrameRef ∧ ∃ u, teardownE t = .ok u := by
  obtain ⟨t, ht, h1, h2, -, haf, -⟩ := teardownE_isOk s
  obtain ⟨u, hu, -⟩ := teardownE_isOk t
  exact ⟨t, ht, h1, h2, haf, u, hu⟩

/-- C7: from a state with no mesh in the scene and the render loop active, a
failed load sets the fixed error message while the scene stays mesh-free
(exactly one of mesh / error holds, namely the error), clears the loading
flag, and the render loop stays active. -/
theorem load_failure_error_xor_mesh (e : String) (s : ViewerState)
    (hm : s.sceneMeshes = []) (hl : s.renderLoopActive = true) :
    (onLoadError e s).error = some "Failed to load the 3D model." ∧
      (onLoadError e s).sceneMeshes = [] ∧
      (onLoadError e s).loading = false ∧
      (onLoadError e s).renderLoopActive = true :=
  ⟨rfl, hm, rfl, hl⟩

/-- The state produced by the effect body on first mount. -/
def initializedState : ViewerState where
  containerChildren := [0]
  mounted := true
  rendererRef := some 0
  controlsRef := some 1
  animationFrameRef := some 2
  sceneMeshes := []
  sceneLights := 3
  loading := true
  error := none
  renderLoopActive := true
  nextId := 3

lemma initE_initialState : initE initialState = .ok initializedState := rfl

theorem load_failure_error_xor_mesh_witness :
    initializedState.sceneMeshes = [] ∧ initializedState.renderLoopActive = true ∧
      ((onLoadError "404 Not Found" initializedState).error =
          some "Failed to load the 3D model." ∧
        (onLoadError "404 Not Found" initializedState).sceneMeshes = [] ∧
        (onLoadError "404 Not Found" initializedState).loading = false ∧
        (onLoadError "404 Not Found" initializedState).renderLoopActive = true) :=
  ⟨rfl, rfl, load_failure_error_xor_mesh "404 Not Found" initializedState rfl rfl⟩

/-- C8: re-initialization — teardown of a cycle whose renderer surface is the
container's single child, followed by the effect body — leaves exactly one
rendering surface attached to the container: the fresh one. -/
theorem reinit_exactly_one_surface (s : ViewerState) (r : Nat)
    (hm : s.mounted = true) (hr : s.rendererRef = some r)
    (hc : s.containerChildren = [r]) :
    ∃ t u, teardownE s = .ok t ∧ initE t = .ok u ∧
      u.containerChildren = [t.nextId] ∧ u.containerChildren.length = 1 := by
  have ht := teardownE_of_attached s r hm hr hc
  exact ⟨_, _, ht, initE_of_no_renderer _ hm rfl, rfl, rfl⟩

theorem reinit_exactly_one_surface_witness :
    runningState.mounted = true ∧ runningState.rendererRef = some 0 ∧
      runningState.containerChildren = [0] ∧
      ∃ t u, teardownE runningState = .ok t ∧ initE t = .ok u ∧
        u.containerChildren = [t.nextId] ∧ u.containerChildren.length = 1 :=
  ⟨rfl, rfl, rfl, reinit_exactly_one_surface runningState 0 rfl rfl rfl⟩

/-- C9: the user-facing error message set by the failure callback is the same
fixed string for every failure cause and every prior state: the displayed
message does not depend on the underlying error value. -/
theorem error_message_constant (e₁ e₂ : String) (s₁ s₂ : ViewerState) :
    (onLoadError e₁ s₁).error = (onLoadError e₂ s₂).error ∧
      (onLoadError e₁ s₁).error = some "Failed to load the 3D model." :=
  ⟨rfl, rfl⟩

/-- C10: at entry to every initialization — the first run, and any run that
follows a teardown — the renderer handle is null, so the unguarded
prior-surface removal branch is not taken and the effect body never throws. -/
theorem init_entry_renderer_handle_null (s t : ViewerState)
    (h : teardownE s = .ok t) :
    t.rendererRef = none ∧ priorSurfaceBranchTaken t = false ∧
      (∃ u, initE t = .ok u) ∧
      initialState.rendererRef = none ∧
      priorSurfaceBranchTaken initialState = false ∧
      ∃ u, initE initialState = .ok u := by
  obtain ⟨t', ht', h1, -, -, -, -⟩ := teardownE_isOk s
  rw [h] at ht'
  have hts := Except.ok.inj ht'
  rw [← hts] at h1
  refine ⟨h1, ?_, initE_isOk_of_renderer_none t h1, rfl, rfl,
    initE_isOk_of_renderer_none initialState rfl⟩
  unfold priorSurfaceBranchTaken
  rw [h1]
  rfl

theorem init_entry_renderer_handle_null_witness :
    teardownE runningState = Except.ok tornState ∧
      (tornState.rendererRef = none ∧ priorSurfaceBranchTaken tornState = false ∧
        (∃ u, initE tornState = .ok u) ∧
        initialState.rendererRef = none ∧
        priorSurfaceBranchTaken initialState = false ∧
        ∃ u, initE initialState = .ok u) :=
  ⟨rfl, init_entry_renderer_handle_null runningState tornState rfl⟩

end STLViewer
